import Mathlib

/-!
Verification of the function registry and dispatch layer of the `grudge`
repository (`src/grudge/function_registry.py`), as a shallow embedding in
Lean 4.

Modelled entities:
* `Function` variants `CElementwiseUnaryFunction`, `CBesselFunction`,
  `FixedDOFDescExternalFunction` as an inductive sum type;
* `FunctionRegistry` as an insertion-ordered association list (mirroring a
  Python `dict`), with `register`, `__getitem__` (`getitem`), `__contains__`
  (`contains`);
* the elementwise `__call__` dispatch: scalar fast path via a symbolic
  `npCall`, array path with the per-instance `memoize_in` kernel cache
  threaded explicitly as state, counting kernel builds;
* the loopy kernel construction (`lp.make_kernel` + `lp.split_iname`) as a
  record of the arguments the Python code passes.

Python exceptions are modelled as `Except` errors carrying the offending
identifier, matching the exception classes in the source.
-/

/-- An opaque DOF descriptor; the registry compares these only for equality. -/
structure DOFDesc where
  tag : Nat
deriving DecidableEq

/-- An opaque device/queue context handle (`queue` in the source). -/
structure Queue where
  qid : Nat
deriving DecidableEq

/-- The loopy kernel object produced on the array path: a record of the
arguments that `lp.make_kernel` and `lp.split_iname` receive from
`CElementwiseUnaryFunction.__call__` (domain, `out[i] = func_name(a[i])`,
`default_offset=lp.auto`, split of `i` by 128 with tags `g.0`/`l.0`). -/
structure LoopyKernel where
  domain : String
  outVar : String
  funcName : String
  argVar : String
  defaultOffsetAuto : Bool
  splitVar : String
  splitSize : Nat
  outerTag : String
  innerTag : String
deriving DecidableEq

/-- Model of `lp.make_kernel` followed by `lp.split_iname` as called in the source, for the given
operation name. -/
def make_knl (func_name : String) : LoopyKernel :=
  { domain := "\x7b[i]: 0<=i<n\x7d"
    outVar := "out"
    funcName := func_name
    argVar := "a"
    defaultOffsetAuto := true
    splitVar := "i"
    splitSize := 128
    outerTag := "g.0"
    innerTag := "l.0" }

/-- Runtime values flowing through `__call__`: plain numeric scalars, numpy
arrays with an explicit shape, and symbolic results of the two evaluation
paths (`getattr(np, func_name)(arg)` and kernel invocation). -/
inductive Value where
  | pyNumber (x : Int)
  | ndarray (shape : List Nat) (data : List Int)
  | npCall (funcName : String) (arg : Value)
  | kernelOut (k : LoopyKernel) (queue : Queue) (arg : Value)
deriving DecidableEq

/-- The scalar-fast-path test in `CElementwiseUnaryFunction.__call__`:
`isinstance(arg, Number) or (isinstance(arg, np.ndarray) and arg.shape == ())`. -/
def isScalarLike : Value → Bool
  | .pyNumber _ => true
  | .ndarray shape _ => shape.isEmpty
  | _ => false

/-- Keyword arguments of a Python call. -/
abbrev KwArgs : Type := List (String × Value)

/-- An external implementation callable, as wrapped by
`FixedDOFDescExternalFunction`: it receives the queue, positional and keyword
arguments. -/
abbrev Impl : Type := Queue → List Value → KwArgs → Value

/-- The `Function` hierarchy of the source as a closed sum:
`CElementwiseUnaryFunction`, `CBesselFunction` (no `__call__` override, so it
inherits the failing base `Function.__call__`), and
`FixedDOFDescExternalFunction` with its wrapped callable and fixed descriptor. -/
inductive Function where
  | cElementwiseUnary (identifier : String)
  | cBessel (identifier : String)
  | fixedDOFDescExternal (identifier : String) (implementation : Impl) (dd : DOFDesc)

/-- The `identifier` attribute every `Function` carries. -/
def Function.identifier : Function → String
  | .cElementwiseUnary i => i
  | .cBessel i => i
  | .fixedDOFDescExternal i _ _ => i

/-- The `supports_codegen` class attribute of each variant. -/
def Function.supports_codegen : Function → Bool
  | .cElementwiseUnary _ => true
  | .cBessel _ => true
  | .fixedDOFDescExternal _ _ _ => false

/-- Errors raised by `get_result_dofdesc`: the `assert` statements in
`CElementwiseUnaryFunction` and `CBesselFunction` raise `AssertionError` on an
arity violation. -/
inductive DofdescError where
  | assertionError
deriving DecidableEq

/-- Descriptor inference `Function.get_result_dofdesc` of each variant:
* `CElementwiseUnaryFunction`: `assert len(arg_dds) == 1; return arg_dds[0]`;
* `CBesselFunction`: `assert len(arg_dds) == 2; return arg_dds[1]`;
* `FixedDOFDescExternalFunction`: `return self.dd`. -/
def Function.get_result_dofdesc : Function → List DOFDesc → Except DofdescError DOFDesc
  | .cElementwiseUnary _, arg_dds =>
    match arg_dds with
    | [d] => .ok d
    | _ => .error .assertionError
  | .cBessel _, arg_dds =>
    match arg_dds with
    | [_, d1] => .ok d1
    | _ => .error .assertionError
  | .fixedDOFDescExternal _ _ dd, _ => .ok dd

/-- Errors raised at invocation time.  `typeErrorNotCallable i` is the base
`Function.__call__` raising `TypeError("function (i) is not callable")` — the
spec calls this condition `NotCallable`; it carries the identifier.
`typeErrorBadCall` models the Python interpreter rejecting an argument list
that does not fit `__call__(self, queue, arg)`. -/
inductive CallError where
  | typeErrorNotCallable (identifier : String)
  | typeErrorBadCall (identifier : String)
deriving DecidableEq

/-- The per-`Function`-instance kernel cache populated by `memoize_in`:
a mapping from the derived cache-key string to the cached kernel. -/
abbrev Cache : Type := List (String × LoopyKernel)

/-- Lookup in an insertion-ordered association list (Python `dict` access). -/
def dict_lookup (k : String) : List (String × β) → Option β
  | [] => none
  | (a, b) :: t => if k = a then some b else dict_lookup k t

/-- The outcome of one `__call__`: the returned value or raised error, the
function instance's kernel cache afterwards, and how many kernels the call
built (invocations of the memoized `knl()` body). -/
structure CallOutcome where
  result : Except CallError Value
  cache : Cache
  kernel_builds : Nat

/-- The identifier-to-operation-name remap of the array path: `func_name` is
the identifier, except that `"fabs"` is remapped to `"abs"` (loopy has a
type-adaptive `abs` but no `fabs`). -/
def op_name (identifier : String) : String :=
  if identifier = "fabs" then "abs" else identifier

/-- The `memoize_in` cache key of the array path:
`cached_name = "map_call_knl_" + func_name` with the remapped name. -/
def cache_key (identifier : String) : String :=
  "map_call_knl_" ++ op_name identifier

/-- Model of `CElementwiseUnaryFunction.__call__(self, queue, arg)`, lines 75-108 of the
source, with the `memoize_in` cache passed explicitly:
* scalar fast path: if `arg` is a plain number or a zero-dimensional array,
  return `getattr(np, func_name)(arg)` where `func_name = self.identifier`;
* array path: remap `fabs` to `abs`, form the cache key
  `"map_call_knl_" + func_name`, reuse the cached kernel if present, otherwise
  build it with `make_knl` and cache it, then invoke it on `(queue, a=arg)`. -/
def CElementwiseUnaryFunction.call (identifier : String) (cache : Cache)
    (queue : Queue) (arg : Value) : CallOutcome :=
  if isScalarLike arg then
    { result := .ok (.npCall identifier arg), cache := cache, kernel_builds := 0 }
  else
    match dict_lookup (cache_key identifier) cache with
    | some k =>
      { result := .ok (.kernelOut k queue arg), cache := cache, kernel_builds := 0 }
    | none =>
      let k := make_knl (op_name identifier)
      { result := .ok (.kernelOut k queue arg)
        cache := cache ++ [(cache_key identifier, k)]
        kernel_builds := 1 }

/-- Unified `__call__` dispatch over the `Function` variants.  `CBesselFunction`
does not override `__call__`, so it hits the base `Function.__call__`, which
raises the not-callable `TypeError`.  `FixedDOFDescExternalFunction` forwards
`(queue, *args, **kwargs)` verbatim to the wrapped implementation. -/
def Function.call (f : Function) (cache : Cache) (queue : Queue)
    (args : List Value) (kwargs : KwArgs) : CallOutcome :=
  match f with
  | .cElementwiseUnary identifier =>
    match args, kwargs with
    | [arg], [] => CElementwiseUnaryFunction.call identifier cache queue arg
    | _, _ =>
      { result := .error (.typeErrorBadCall identifier), cache := cache
        kernel_builds := 0 }
  | .cBessel identifier =>
    { result := .error (.typeErrorNotCallable identifier), cache := cache
      kernel_builds := 0 }
  | .fixedDOFDescExternal _ implementation _ =>
    { result := .ok (implementation queue args kwargs), cache := cache
      kernel_builds := 0 }

/-- Errors raised by `FunctionRegistry`: `register` raises
`ValueError("function (i) is already registered")` on a duplicate, and
`__getitem__` raises `FunctionNotFound("unknown function: (i)")` — a dedicated
`KeyError` subclass — on a missing identifier.  Both carry the identifier. -/
inductive RegistryError where
  | valueErrorAlreadyRegistered (identifier : String)
  | functionNotFound (identifier : String)

/-- The `FunctionRegistry` record holding `id_to_function`, an insertion-ordered
mapping from identifier to `Function` (a Python `dict`). -/
structure FunctionRegistry where
  id_to_function : List (String × Function)

/-- Membership test `FunctionRegistry.__contains__`. -/
def FunctionRegistry.contains (R : FunctionRegistry) (function_id : String) : Bool :=
  (dict_lookup function_id R.id_to_function).isSome

/-- Lookup `FunctionRegistry.__getitem__`: the bound function, or `FunctionNotFound`. -/
def FunctionRegistry.getitem (R : FunctionRegistry) (function_id : String) :
    Except RegistryError Function :=
  match dict_lookup function_id R.id_to_function with
  | some f => .ok f
  | none => .error (.functionNotFound function_id)

/-- Registration `FunctionRegistry.register`: raise `ValueError` on a duplicate identifier;
otherwise return a copy of the registry with the new entry added (a Python
`dict.copy()` followed by keyed assignment of a fresh key appends the entry in
insertion order). -/
def FunctionRegistry.register (R : FunctionRegistry) (function : Function) :
    Except RegistryError FunctionRegistry :=
  if (dict_lookup (Function.identifier function) R.id_to_function).isSome then
    .error (.valueErrorAlreadyRegistered (Function.identifier function))
  else
    .ok ⟨R.id_to_function ++ [(Function.identifier function, function)]⟩

/-- The builder `_make_bfr()`: sequentially register the seven base functions into an
empty registry. -/
def make_bfr : Except RegistryError FunctionRegistry := do
  let bfr : FunctionRegistry := ⟨[]⟩
  let bfr ← bfr.register (.cElementwiseUnary ("sqrt"))
  let bfr ← bfr.register (.cElementwiseUnary ("exp"))
  let bfr ← bfr.register (.cElementwiseUnary ("fabs"))
  let bfr ← bfr.register (.cElementwiseUnary ("sin"))
  let bfr ← bfr.register (.cElementwiseUnary ("cos"))
  let bfr ← bfr.register (.cBessel ("bessel_j"))
  let bfr ← bfr.register (.cBessel ("bessel_y"))
  return bfr

/-- The module-level `base_function_registry = _make_bfr()`.  In Python a registration failure
would propagate as an exception at import time; `_make_bfr` registers seven
distinct identifiers, so it succeeds (proved in `make_bfr_ok` below) and the
fallback branch is unreachable. -/
def base_function_registry : FunctionRegistry :=
  match make_bfr with
  | .ok r => r
  | .error _ => ⟨[]⟩

/-- The helper `register_external_function(function_registry, identifier, implementation,
dd)`: wrap the implementation in a `FixedDOFDescExternalFunction` and register
it. -/
def register_external_function (function_registry : FunctionRegistry)
    (identifier : String) (implementation : Impl) (dd : DOFDesc) :
    Except RegistryError FunctionRegistry :=
  function_registry.register
    (.fixedDOFDescExternal identifier implementation dd)

/-- Well-formedness of a registry: every identifier is bound to a `Function`
carrying that identifier.  This holds for the empty registry and is preserved
by `register` (which keys entries by `function.identifier`), hence it holds
for every registry built through the registration API. -/
def FunctionRegistry.WellFormed (R : FunctionRegistry) : Prop :=
  ∀ k f, dict_lookup k R.id_to_function = some f → Function.identifier f = k

/-! ### Helper lemmas about `dict_lookup` and well-formed registries -/

theorem dict_lookup_append_of_some {β : Type} (k : String)
    (l1 l2 : List (String × β)) (v : β) (h : dict_lookup k l1 = some v) :
    dict_lookup k (l1 ++ l2) = some v := by
  induction l1 with
  | nil => simp [dict_lookup] at h
  | cons p t ih =>
    obtain ⟨a, b⟩ := p
    by_cases hk : k = a
    · simp [dict_lookup, hk] at h ⊢
      exact h
    · simp [dict_lookup, hk] at h ⊢
      exact ih h

theorem dict_lookup_append_of_none {β : Type} (k : String)
    (l1 l2 : List (String × β)) (h : dict_lookup k l1 = none) :
    dict_lookup k (l1 ++ l2) = dict_lookup k l2 := by
  induction l1 with
  | nil => simp
  | cons p t ih =>
    obtain ⟨a, b⟩ := p
    by_cases hk : k = a
    · simp [dict_lookup, hk] at h
    · simp [dict_lookup, hk] at h ⊢
      exact ih h

theorem wellFormed_of_entries (l : List (String × Function))
    (h : ∀ p ∈ l, Function.identifier p.2 = p.1) :
    FunctionRegistry.WellFormed ⟨l⟩ := by
  induction l with
  | nil => intro k f hl; simp [dict_lookup] at hl
  | cons p t ih =>
    intro k f hl
    obtain ⟨a, b⟩ := p
    by_cases hk : k = a
    · simp only [dict_lookup, if_pos hk] at hl
      injection hl with hbf
      subst hbf
      rw [hk]
      exact h (a, _) (by simp)
    · simp only [dict_lookup, if_neg hk] at hl
      exact ih (fun q hq => h q (by simp [hq])) k f hl

/-- The builder `_make_bfr` succeeds: the seven identifiers are distinct, so no
registration raises, and `base_function_registry` is the resulting registry. -/
theorem make_bfr_ok : make_bfr = .ok base_function_registry := by rfl

theorem base_registry_wellFormed : base_function_registry.WellFormed := by
  have h : base_function_registry =
      ⟨[(("sqrt"), .cElementwiseUnary ("sqrt")),
        (("exp"), .cElementwiseUnary ("exp")),
        (("fabs"), .cElementwiseUnary ("fabs")),
        (("sin"), .cElementwiseUnary ("sin")),
        (("cos"), .cElementwiseUnary ("cos")),
        (("bessel_j"), .cBessel ("bessel_j")),
        (("bessel_y"), .cBessel ("bessel_y"))]⟩ := by rfl
  rw [h]
  refine wellFormed_of_entries _ ?_
  intro p hp
  fin_cases hp <;> rfl

/-! ### Claim theorems -/

/-- C1.  Registration is copy-on-write: if `f.identifier` is not contained in
`R`, then `R.register f` succeeds with a registry `R2` that contains
`f.identifier`, binds every identifier bound in `R` to the same `Function`,
and agrees with `R` on membership of every other identifier; `R` itself is a
pure value the call never mutates, so its membership test for `f.identifier`
(and every other identifier) is after the call what it was before. -/
theorem register_copy_on_write (R : FunctionRegistry) (f : Function)
    (h : FunctionRegistry.contains R (Function.identifier f) = false) :
    ∃ R2, R.register f = .ok R2
      ∧ FunctionRegistry.contains R2 (Function.identifier f) = true
      ∧ (∀ i g, R.getitem i = .ok g → R2.getitem i = .ok g)
      ∧ (∀ i, i ≠ Function.identifier f →
          FunctionRegistry.contains R2 i = FunctionRegistry.contains R i)
      ∧ FunctionRegistry.contains R (Function.identifier f) = false := by
  have hnone : dict_lookup (Function.identifier f) R.id_to_function = none := by
    unfold FunctionRegistry.contains at h
    cases hl : dict_lookup (Function.identifier f) R.id_to_function with
    | none => rfl
    | some v => rw [hl] at h; simp at h
  refine ⟨⟨R.id_to_function ++ [(Function.identifier f, f)]⟩, ?_, ?_, ?_, ?_, ?_⟩
  · simp [FunctionRegistry.register, hnone]
  · simp [FunctionRegistry.contains,
      dict_lookup_append_of_none _ _ _ hnone, dict_lookup]
  · intro i g hg
    simp only [FunctionRegistry.getitem] at hg ⊢
    cases hl : dict_lookup i R.id_to_function with
    | none => rw [hl] at hg; exact absurd hg (by simp)
    | some v =>
      rw [hl] at hg
      rw [dict_lookup_append_of_some _ _ _ _ hl]
      exact hg
  · intro i hi
    simp only [FunctionRegistry.contains]
    cases hl : dict_lookup i R.id_to_function with
    | none =>
      rw [dict_lookup_append_of_none _ _ _ hl]
      simp [dict_lookup, hi]
    | some v =>
      rw [dict_lookup_append_of_some _ _ _ _ hl]
  · exact h

/-- C1 witness: registering `sin` into the empty registry. -/
theorem register_copy_on_write_witness :
    FunctionRegistry.contains ⟨[]⟩
        (Function.identifier (.cElementwiseUnary ("sin"))) = false
    ∧ ∃ R2, FunctionRegistry.register ⟨[]⟩ (.cElementwiseUnary ("sin")) = .ok R2
      ∧ FunctionRegistry.contains R2
          (Function.identifier (.cElementwiseUnary ("sin"))) = true
      ∧ (∀ i g, FunctionRegistry.getitem ⟨[]⟩ i = .ok g →
          FunctionRegistry.getitem R2 i = .ok g)
      ∧ (∀ i, i ≠ Function.identifier (.cElementwiseUnary ("sin")) →
          FunctionRegistry.contains R2 i = FunctionRegistry.contains ⟨[]⟩ i)
      ∧ FunctionRegistry.contains ⟨[]⟩
          (Function.identifier (.cElementwiseUnary ("sin"))) = false :=
  ⟨by rfl, register_copy_on_write ⟨[]⟩ (.cElementwiseUnary ("sin")) (by rfl)⟩

/-- C2.  Duplicate registration always fails: if `f.identifier` is contained
in `R` — whatever `Function` is bound there — `R.register f` raises the
duplicate-identifier `ValueError` naming `f.identifier`; no registry with the
new binding is produced, and `R`, a pure value, is unchanged. -/
theorem register_duplicate_rejected (R : FunctionRegistry) (f : Function)
    (h : FunctionRegistry.contains R (Function.identifier f) = true) :
    R.register f = .error (.valueErrorAlreadyRegistered (Function.identifier f)) := by
  simp only [FunctionRegistry.contains] at h
  simp [FunctionRegistry.register, h]

/-- C2 witness: re-registering an (even behaviorally identical) `sin` into the
base registry fails. -/
theorem register_duplicate_rejected_witness :
    FunctionRegistry.contains base_function_registry
        (Function.identifier (.cElementwiseUnary ("sin"))) = true
    ∧ FunctionRegistry.register base_function_registry (.cElementwiseUnary ("sin"))
        = .error (.valueErrorAlreadyRegistered
            (Function.identifier (.cElementwiseUnary ("sin")))) :=
  ⟨by rfl,
   register_duplicate_rejected base_function_registry
     (.cElementwiseUnary ("sin")) (by rfl)⟩

/-- C3.  Lookup is total with a typed failure: on a well-formed registry
(one built through the registration API, which keys every entry by its
function's identifier), every identifier is either contained and `getitem`
returns a `Function` carrying exactly that identifier, or not contained and
`getitem` raises `FunctionNotFound` carrying the offending identifier. -/
theorem getitem_total_typed_failure (R : FunctionRegistry)
    (hwf : R.WellFormed) (i : String) :
    (FunctionRegistry.contains R i = true
      ∧ ∃ f, R.getitem i = .ok f ∧ Function.identifier f = i)
    ∨ (FunctionRegistry.contains R i = false
      ∧ R.getitem i = .error (.functionNotFound i)) := by
  cases hl : dict_lookup i R.id_to_function with
  | some f =>
    left
    refine ⟨by simp [FunctionRegistry.contains, hl], f, ?_, hwf i f hl⟩
    simp [FunctionRegistry.getitem, hl]
  | none =>
    right
    refine ⟨by simp [FunctionRegistry.contains, hl], ?_⟩
    simp [FunctionRegistry.getitem, hl]

/-- C3 witness: the base registry is well-formed; looking up `sin` (present)
and `myfunc` (absent) lands in the respective branches. -/
theorem getitem_total_typed_failure_witness :
    base_function_registry.WellFormed
    ∧ ((FunctionRegistry.contains base_function_registry ("sin") = true
        ∧ ∃ f, FunctionRegistry.getitem base_function_registry ("sin") = .ok f
          ∧ Function.identifier f = "sin")
      ∨ (FunctionRegistry.contains base_function_registry ("sin") = false
        ∧ FunctionRegistry.getitem base_function_registry ("sin")
            = .error (.functionNotFound ("sin")))) :=
  ⟨base_registry_wellFormed,
   getitem_total_typed_failure base_function_registry base_registry_wellFormed ("sin")⟩

/-- C4.  Elementwise array-path kernel build and cache: the cache key is the
fixed prefix `"map_call_knl_"` followed by the operation name (the identifier,
except `"fabs"` remapped to `"abs"`); a call with the key absent builds the
kernel exactly once and installs it under that key; a call with the key
present reuses the cached kernel and builds nothing; hence two array-argument
invocations of the same `Function` instance against the same queue build the
kernel at most once. -/
theorem elementwise_kernel_cache_memoization (identifier : String)
    (queue : Queue) (cache : Cache) (arg1 arg2 : Value)
    (h1 : isScalarLike arg1 = false) (h2 : isScalarLike arg2 = false) :
    cache_key identifier
        = "map_call_knl_" ++ (if identifier = "fabs" then "abs" else identifier)
    ∧ (dict_lookup (cache_key identifier) cache = none →
        (CElementwiseUnaryFunction.call identifier cache queue arg1).cache
            = cache ++ [(cache_key identifier, make_knl (op_name identifier))]
        ∧ (CElementwiseUnaryFunction.call identifier cache queue arg1).kernel_builds = 1)
    ∧ (∀ k, dict_lookup (cache_key identifier) cache = some k →
        (CElementwiseUnaryFunction.call identifier cache queue arg1).result
            = .ok (.kernelOut k queue arg1)
        ∧ (CElementwiseUnaryFunction.call identifier cache queue arg1).cache = cache
        ∧ (CElementwiseUnaryFunction.call identifier cache queue arg1).kernel_builds = 0)
    ∧ (CElementwiseUnaryFunction.call identifier
        (CElementwiseUnaryFunction.call identifier cache queue arg1).cache
        queue arg2).kernel_builds = 0
    ∧ (CElementwiseUnaryFunction.call identifier cache queue arg1).kernel_builds
      + (CElementwiseUnaryFunction.call identifier
          (CElementwiseUnaryFunction.call identifier cache queue arg1).cache
          queue arg2).kernel_builds ≤ 1 := by
  have hkey : ∀ c : Cache, ∀ a : Value, isScalarLike a = false →
      ∃ k, dict_lookup (cache_key identifier)
        (CElementwiseUnaryFunction.call identifier c queue a).cache = some k := by
    intro c a ha
    unfold CElementwiseUnaryFunction.call
    rw [ha]
    simp only [Bool.false_eq_true, if_false]
    cases hc : dict_lookup (cache_key identifier) c with
    | some k => exact ⟨k, hc⟩
    | none =>
      refine ⟨make_knl (op_name identifier), ?_⟩
      simp [dict_lookup_append_of_none _ _ _ hc, dict_lookup]
  have hcached : ∀ c : Cache, (∃ k, dict_lookup (cache_key identifier) c = some k) →
      (CElementwiseUnaryFunction.call identifier c queue arg2).kernel_builds = 0 := by
    rintro c ⟨k, hk⟩
    unfold CElementwiseUnaryFunction.call
    rw [h2]
    simp only [Bool.false_eq_true, if_false]
    rw [hk]
  have hb2 : (CElementwiseUnaryFunction.call identifier
      (CElementwiseUnaryFunction.call identifier cache queue arg1).cache
      queue arg2).kernel_builds = 0 :=
    hcached _ (hkey cache arg1 h1)
  refine ⟨by rfl, ?_, ?_, hb2, ?_⟩
  · intro hnone
    unfold CElementwiseUnaryFunction.call
    rw [h1]
    simp only [Bool.false_eq_true, if_false]
    rw [hnone]
    exact ⟨rfl, rfl⟩
  · intro k hk
    unfold CElementwiseUnaryFunction.call
    rw [h1]
    simp only [Bool.false_eq_true, if_false]
    rw [hk]
    exact ⟨rfl, rfl, rfl⟩
  · have hb1 : (CElementwiseUnaryFunction.call identifier cache queue arg1).kernel_builds ≤ 1 := by
      unfold CElementwiseUnaryFunction.call
      rw [h1]
      simp only [Bool.false_eq_true, if_false]
      cases hc : dict_lookup (cache_key identifier) cache <;> simp
    omega

/-- C4 witness: two invocations of `fabs` on an array against the same queue,
starting from an empty cache, build one kernel under key `map_call_knl_abs`
and reuse it the second time. -/
theorem elementwise_kernel_cache_memoization_witness :
    isScalarLike (.ndarray [2] [1, -2]) = false
    ∧ (cache_key ("fabs")
        = "map_call_knl_" ++ (if ("fabs" : String) = "fabs" then "abs" else "fabs")
      ∧ (dict_lookup (cache_key ("fabs")) ([] : Cache) = none →
          (CElementwiseUnaryFunction.call ("fabs") [] ⟨7⟩ (.ndarray [2] [1, -2])).cache
              = ([] : Cache) ++ [(cache_key ("fabs"), make_knl (op_name ("fabs")))]
          ∧ (CElementwiseUnaryFunction.call ("fabs") [] ⟨7⟩
              (.ndarray [2] [1, -2])).kernel_builds = 1)
      ∧ (∀ k, dict_lookup (cache_key ("fabs")) ([] : Cache) = some k →
          (CElementwiseUnaryFunction.call ("fabs") [] ⟨7⟩ (.ndarray [2] [1, -2])).result
              = .ok (.kernelOut k ⟨7⟩ (.ndarray [2] [1, -2]))
          ∧ (CElementwiseUnaryFunction.call ("fabs") [] ⟨7⟩
              (.ndarray [2] [1, -2])).cache = ([] : Cache)
          ∧ (CElementwiseUnaryFunction.call ("fabs") [] ⟨7⟩
              (.ndarray [2] [1, -2])).kernel_builds = 0)
      ∧ (CElementwiseUnaryFunction.call ("fabs")
          (CElementwiseUnaryFunction.call ("fabs") [] ⟨7⟩ (.ndarray [2] [1, -2])).cache
          ⟨7⟩ (.ndarray [3] [4, 5, 6])).kernel_builds = 0
      ∧ (CElementwiseUnaryFunction.call ("fabs") [] ⟨7⟩
            (.ndarray [2] [1, -2])).kernel_builds
        + (CElementwiseUnaryFunction.call ("fabs")
            (CElementwiseUnaryFunction.call ("fabs") [] ⟨7⟩ (.ndarray [2] [1, -2])).cache
            ⟨7⟩ (.ndarray [3] [4, 5, 6])).kernel_builds ≤ 1) :=
  ⟨by rfl,
   elementwise_kernel_cache_memoization ("fabs") ⟨7⟩ []
     (.ndarray [2] [1, -2]) (.ndarray [3] [4, 5, 6]) (by rfl) (by rfl)⟩

/-- C5.  Scalar fast path: invoking an elementwise unary function with a sole
argument that is a plain number or a zero-dimensional array returns the
corresponding scalar numpy operation applied to that argument
(`getattr(np, identifier)(arg)`), with the kernel cache untouched and zero
kernel builds — no kernel is constructed or consulted. -/
theorem scalar_fast_path (identifier : String) (cache : Cache) (queue : Queue)
    (arg : Value) (h : isScalarLike arg = true) :
    Function.call (.cElementwiseUnary identifier) cache queue [arg] []
      = ⟨.ok (.npCall identifier arg), cache, 0⟩ := by
  show CElementwiseUnaryFunction.call identifier cache queue arg = _
  unfold CElementwiseUnaryFunction.call
  rw [h]
  simp

/-- C5 witness: `sin` on the plain number 2 and `exp` on a zero-dimensional
array. -/
theorem scalar_fast_path_witness :
    isScalarLike (.pyNumber 2) = true
    ∧ Function.call (.cElementwiseUnary ("sin")) [] ⟨3⟩ [.pyNumber 2] []
        = ⟨.ok (.npCall ("sin") (.pyNumber 2)), ([] : Cache), 0⟩
    ∧ isScalarLike (.ndarray [] [5]) = true
    ∧ Function.call (.cElementwiseUnary ("exp")) [] ⟨3⟩ [.ndarray [] [5]] []
        = ⟨.ok (.npCall ("exp") (.ndarray [] [5])), ([] : Cache), 0⟩ :=
  ⟨by rfl, scalar_fast_path ("sin") [] ⟨3⟩ (.pyNumber 2) (by rfl),
   by rfl, scalar_fast_path ("exp") [] ⟨3⟩ (.ndarray [] [5]) (by rfl)⟩

/-- C6.  A `Function` variant that does not implement invocation hits the base
`Function.__call__`, which always raises the not-callable `TypeError` naming
the function: in particular the two-argument Bessel functions resolved from
the base registry fail this way for every queue, argument list, keyword
arguments and cache state. -/
theorem bessel_invocation_not_callable :
    FunctionRegistry.getitem base_function_registry ("bessel_j")
        = .ok (.cBessel ("bessel_j"))
    ∧ FunctionRegistry.getitem base_function_registry ("bessel_y")
        = .ok (.cBessel ("bessel_y"))
    ∧ ∀ (identifier : String) (cache : Cache) (queue : Queue)
        (args : List Value) (kwargs : KwArgs),
        Function.call (.cBessel identifier) cache queue args kwargs
          = ⟨.error (.typeErrorNotCallable identifier), cache, 0⟩ := by
  refine ⟨by rfl, by rfl, ?_⟩
  intro identifier cache queue args kwargs
  rfl

/-- C7.  Unary descriptor propagation: `get_result_dofdesc` of an elementwise
unary function returns the sole descriptor unchanged on a one-element list,
and fails with the assertion-style arity error on any list of 0 or 2+ 
descriptors. -/
theorem unary_get_result_dofdesc (identifier : String) (d : DOFDesc)
    (arg_dds : List DOFDesc) (h : arg_dds.length ≠ 1) :
    Function.get_result_dofdesc (.cElementwiseUnary identifier) [d] = .ok d
    ∧ Function.get_result_dofdesc (.cElementwiseUnary identifier) arg_dds
        = .error .assertionError := by
  refine ⟨rfl, ?_⟩
  match arg_dds with
  | [] => rfl
  | [x] => exact absurd rfl h
  | x :: y :: t => rfl

/-- C7 witness: a singleton descriptor passes through; the empty list fails. -/
theorem unary_get_result_dofdesc_witness :
    (([] : List DOFDesc).length ≠ 1)
    ∧ Function.get_result_dofdesc (.cElementwiseUnary ("sin")) [⟨5⟩] = .ok ⟨5⟩
    ∧ Function.get_result_dofdesc (.cElementwiseUnary ("sin")) ([] : List DOFDesc)
        = .error .assertionError :=
  ⟨by decide,
   (unary_get_result_dofdesc ("sin") ⟨5⟩ [] (by decide)).1,
   (unary_get_result_dofdesc ("sin") ⟨5⟩ [] (by decide)).2⟩

/-- C8.  Binary special-function descriptor propagation: `get_result_dofdesc`
of a Bessel-type function returns the second descriptor on a two-element
list, and fails with the assertion-style arity error on any list whose length
is not 2. -/
theorem bessel_get_result_dofdesc (identifier : String) (d0 d1 : DOFDesc)
    (arg_dds : List DOFDesc) (h : arg_dds.length ≠ 2) :
    Function.get_result_dofdesc (.cBessel identifier) [d0, d1] = .ok d1
    ∧ Function.get_result_dofdesc (.cBessel identifier) arg_dds
        = .error .assertionError := by
  refine ⟨rfl, ?_⟩
  match arg_dds with
  | [] => rfl
  | [x] => rfl
  | [x, y] => exact absurd rfl h
  | x :: y :: z :: t => rfl

/-- C8 witness: a descriptor pair yields the second; a singleton fails. -/
theorem bessel_get_result_dofdesc_witness :
    ([⟨9⟩] : List DOFDesc).length ≠ 2
    ∧ Function.get_result_dofdesc (.cBessel ("bessel_j")) [⟨4⟩, ⟨8⟩] = .ok ⟨8⟩
    ∧ Function.get_result_dofdesc (.cBessel ("bessel_j")) [⟨9⟩]
        = .error .assertionError :=
  ⟨by decide,
   (bessel_get_result_dofdesc ("bessel_j") ⟨4⟩ ⟨8⟩ [⟨9⟩] (by decide)).1,
   (bessel_get_result_dofdesc ("bessel_j") ⟨4⟩ ⟨8⟩ [⟨9⟩] (by decide)).2⟩

/-- C9.  Fixed-descriptor external function: invocation forwards
`(queue, *args, **kwargs)` verbatim to the wrapped implementation and returns
its result unchanged (no cache use, no kernel builds); `get_result_dofdesc`
ignores its input entirely and returns the descriptor `dd` fixed at
registration time, for an argument-descriptor list of any length; and
`register_external_function` registers precisely the wrapper carrying that
implementation and descriptor. -/
theorem fixed_dofdesc_external_behavior (identifier : String)
    (implementation : Impl) (dd : DOFDesc) (cache : Cache) (queue : Queue)
    (args : List Value) (kwargs : KwArgs) (arg_dds : List DOFDesc)
    (R : FunctionRegistry) :
    Function.call (.fixedDOFDescExternal identifier implementation dd)
        cache queue args kwargs
      = ⟨.ok (implementation queue args kwargs), cache, 0⟩
    ∧ Function.get_result_dofdesc
        (.fixedDOFDescExternal identifier implementation dd) arg_dds = .ok dd
    ∧ register_external_function R identifier implementation dd
      = FunctionRegistry.register R
          (.fixedDOFDescExternal identifier implementation dd) :=
  ⟨rfl, rfl, rfl⟩

/-- C10.  The `fabs`-to-`abs` remap does not apply on the scalar fast path:
a scalar invocation of `fabs` applies the numpy function named by the
unmodified identifier (`np.fabs`, not `np.abs`); the remap to operation
`"abs"` happens only on the array/kernel path, whose cache key is
`"map_call_knl_abs"` and whose kernel carries operation name `"abs"`. -/
theorem fabs_scalar_path_unremapped (cache : Cache) (queue : Queue)
    (arg : Value) (h : isScalarLike arg = true) :
    (CElementwiseUnaryFunction.call ("fabs") cache queue arg).result
        = .ok (.npCall ("fabs") arg)
    ∧ Value.npCall ("fabs") arg ≠ Value.npCall ("abs") arg
    ∧ op_name ("fabs") = "abs"
    ∧ cache_key ("fabs") = "map_call_knl_abs"
    ∧ (∀ arg2 : Value, isScalarLike arg2 = false →
        dict_lookup (cache_key ("fabs")) cache = none →
          (CElementwiseUnaryFunction.call ("fabs") cache queue arg2).result
            = .ok (.kernelOut (make_knl ("abs")) queue arg2)) := by
  refine ⟨?_, ?_, by rfl, by rfl, ?_⟩
  · unfold CElementwiseUnaryFunction.call
    rw [h]
    simp
  · intro hcontra
    injection hcontra with hname harg
    exact absurd hname (by decide)
  · intro arg2 h2 hnone
    unfold CElementwiseUnaryFunction.call
    rw [h2]
    simp only [Bool.false_eq_true, if_false]
    rw [hnone]
    rfl

/-- C10 witness: `fabs` on the plain number −3 evaluates via `np.fabs`; on an
array it builds the `abs` kernel. -/
theorem fabs_scalar_path_unremapped_witness :
    isScalarLike (.pyNumber (-3)) = true
    ∧ ((CElementwiseUnaryFunction.call ("fabs") [] ⟨1⟩ (.pyNumber (-3))).result
        = .ok (.npCall ("fabs") (.pyNumber (-3)))
      ∧ Value.npCall ("fabs") (.pyNumber (-3)) ≠ Value.npCall ("abs") (.pyNumber (-3))
      ∧ op_name ("fabs") = "abs"
      ∧ cache_key ("fabs") = "map_call_knl_abs"
      ∧ (∀ arg2 : Value, isScalarLike arg2 = false →
          dict_lookup (cache_key ("fabs")) ([] : Cache) = none →
            (CElementwiseUnaryFunction.call ("fabs") [] ⟨1⟩ arg2).result
              = .ok (.kernelOut (make_knl ("abs")) ⟨1⟩ arg2))) :=
  ⟨by rfl, fabs_scalar_path_unremapped [] ⟨1⟩ (.pyNumber (-3)) (by rfl)⟩
